import Mathlib

/-!
# Verification of the CallWhiz Python SDK (callwhiz/client.py, callwhiz/models.py)

A shallow embedding of the SDK's request/response normalization and
error-mapping layer.  The HTTP exchange itself is abstracted: every
embedded resource method takes the outcome of the transport
(`TransportResult`) as an explicit input, and the pure decision logic of
the source — status-code-to-exception mapping, envelope unwrapping,
optional-field payload building, response parsing into typed records —
is translated function by function.

Python exceptions are modelled by an explicit error type `PyExc`; a
function that can raise returns `Except PyExc α`.  Python truthiness,
`dict.get`, the bare `except:` around the error-body parse, and
`pydantic` construction semantics are modelled explicitly where the
source relies on them.
-/

set_option autoImplicit false

namespace CallWhiz

/-- JSON values, as produced by `response.json()`.  Numeric literals are
modelled as integers; none of the verified logic inspects numeric values
beyond their JSON kind. -/
inductive Json where
  | null
  | bool (b : Bool)
  | num (n : Int)
  | str (s : String)
  | arr (items : List Json)
  | obj (fields : List (String × Json))

/-- Python exceptions that the verified layer can surface.  The first
four mirror `callwhiz/exceptions.py` (`CallWhizError` and its three
subclasses); the rest are built-in Python exceptions that can escape
the SDK (`ValueError` from local validation, `KeyError` from
`data["data"]`, `AttributeError` from `.get` on a non-dict,
`json.JSONDecodeError` from `response.json()` on a non-JSON body,
pydantic `ValidationError`, and `TypeError` from iterating or
splatting a non-list/non-dict). -/
inductive PyExc where
  | callWhizError (msg : Json)
  | authenticationError (msg : Json)
  | notFoundError (msg : Json)
  | rateLimitError (msg : Json)
  | valueError (msg : String)
  | keyError (key : String)
  | attributeError
  | jsonDecodeError
  | validationError
  | typeError

/-- Does the exception belong to the SDK's documented taxonomy, i.e. is
it `CallWhizError` or one of its subclasses (`AuthenticationError`,
`NotFoundError`, `RateLimitError`)? -/
def PyExc.isCallWhizError : PyExc → Bool
  | .callWhizError _ => true
  | .authenticationError _ => true
  | .notFoundError _ => true
  | .rateLimitError _ => true
  | _ => false

/-- An HTTP response as seen by `_request`: the status code, the raw
body text (`response.text`), and the result of `response.json()` —
`some` JSON value when the body parses, `none` when parsing raises. -/
structure HTTPResponse where
  status : Nat
  text : String
  body : Option Json

/-- Outcome of `self.session.request(...)`: either a response, or an
`httpx.RequestError` (network/connection failure) carrying the string
the exception formats to. -/
inductive TransportResult where
  | success (r : HTTPResponse)
  | requestError (cause : String)

/-- `httpx.Response.is_success`: status in the 2xx range.
`raise_for_status()` raises `HTTPStatusError` exactly when this is
false. -/
def statusIsSuccess (s : Nat) : Bool :=
  200 ≤ s && s < 300

/-- First-match association-list lookup: `Python dict` access for the
modelled JSON objects (`d.get(k)` is `jlookup fields k`, absent keys
giving `none`/Python `None`). -/
def jlookup : List (String × Json) → String → Option Json
  | [], _ => none
  | (k', v) :: rest, k => if k' = k then some v else jlookup rest k

/-- Python truthiness of a JSON-decoded value (`None`, `False`, `0`,
`""`, `[]`, `{}` are falsy). -/
def truthy : Json → Bool
  | .null => false
  | .bool b => b
  | .num n => n != 0
  | .str s => s ≠ ""
  | .arr items => !items.isEmpty
  | .obj fields => !fields.isEmpty

/-- Truthiness of `d.get(k)`: an absent key yields `None`, which is
falsy. -/
def truthyOpt : Option Json → Bool
  | none => false
  | some v => truthy v

/-- The message of the generic `CallWhizError` raised by `_request` for
a non-2xx status other than 401/404/429 (client.py lines 52–58):

```
try:
    error_data = e.response.json()
    error_msg = error_data.get("error", {}).get("message", f"HTTP {code}")
except:
    error_msg = f"HTTP {code}: {e.response.text}"
```

The bare `except:` also catches the `AttributeError` raised by `.get`
when the parsed body, or its `"error"` value, is not a dict. -/
def genericStatusMsg (r : HTTPResponse) : Json :=
  match r.body with
  | none => .str ("HTTP " ++ toString r.status ++ ": " ++ r.text)
  | some (.obj fields) =>
    match jlookup fields "error" with
    | some (.obj errFields) =>
      (match jlookup errFields "message" with
       | some m => m
       | none => .str ("HTTP " ++ toString r.status))
    | none => .str ("HTTP " ++ toString r.status)
    | some _ => .str ("HTTP " ++ toString r.status ++ ": " ++ r.text)
  | some _ => .str ("HTTP " ++ toString r.status ++ ": " ++ r.text)

/-- The `except httpx.HTTPStatusError` arm of `_request` (client.py
lines 45–58): 401/404/429 map to the specific exception kinds, anything
else to the generic `CallWhizError` with `genericStatusMsg`. -/
def statusError (r : HTTPResponse) : PyExc :=
  if r.status = 401 then .authenticationError (.str "Invalid API key")
  else if r.status = 404 then .notFoundError (.str "Resource not found")
  else if r.status = 429 then .rateLimitError (.str "Rate limit exceeded")
  else .callWhizError (genericStatusMsg r)

/-- The body of `_request` after a response was obtained (client.py
lines 35–58): `raise_for_status()`, then `response.json()`, then the
envelope check `if not data.get("success")`, then `return data["data"]`.

A 2xx response whose body is not JSON propagates the decode error; a
2xx JSON body that is not an object raises `AttributeError` from
`data.get`; a falsy-`success` envelope whose `"error"` value is not a
dict raises `AttributeError` from `error_info.get` (neither is inside
a `try` that catches them); a truthy-`success` envelope without a
`"data"` key raises `KeyError` from `data["data"]`. -/
def processResponse (r : HTTPResponse) : Except PyExc Json :=
  if statusIsSuccess r.status then
    match r.body with
    | none => .error .jsonDecodeError
    | some (.obj fields) =>
      if truthyOpt (jlookup fields "success") then
        match jlookup fields "data" with
        | some d => .ok d
        | none => .error (.keyError "data")
      else
        match jlookup fields "error" with
        | none => .error (.callWhizError (.str "Unknown error"))
        | some (.obj errFields) =>
          .error (.callWhizError
            (match jlookup errFields "message" with
             | some m => m
             | none => .str "Unknown error"))
        | some _ => .error .attributeError
    | some _ => .error .attributeError
  else
    .error (statusError r)

/-- `CallWhiz._request`, with the transport exchange abstracted as an
input: a raised `httpx.RequestError` is wrapped into
`CallWhizError(f"Request failed: {e}")` (client.py lines 59–60);
otherwise the response is processed as in `processResponse`. -/
def callwhizRequest (t : TransportResult) : Except PyExc Json :=
  match t with
  | .requestError cause => .error (.callWhizError (.str ("Request failed: " ++ cause)))
  | .success r => processResponse r

/-- One optional entry of a request payload dict: the source's
`if x is not None: data[k] = x` contributes `[(k, enc x)]` when the
parameter was supplied non-`None` and nothing when it was omitted
(Python defaults every optional parameter to `None`, so omitting a
parameter and passing `None` are the same input). -/
def optField (k : String) (v : Option Json) : List (String × Json) :=
  match v with
  | none => []
  | some j => [(k, j)]

/-- Python truthiness of an `Optional[str]` argument: `None` and `""`
are falsy. -/
def truthyOptStr : Option String → Bool
  | none => false
  | some s => s ≠ ""

/-- Python truthiness of an `Optional[List[...]]` argument: `None` and
`[]` are falsy. -/
def truthyOptList {α : Type} : Option (List α) → Bool
  | none => false
  | some l => !l.isEmpty

/-- `models.CallStage`: name, prompt, optional webhook id list. -/
structure CallStage where
  name : String
  prompt : String
  webhook_ids : Option (List String)

/-- `stage.model_dump()`: a pydantic dump includes every field, with a
`None` field serialized as JSON `null`. -/
def CallStage.model_dump (s : CallStage) : Json :=
  .obj [("name", .str s.name), ("prompt", .str s.prompt),
        ("webhook_ids", match s.webhook_ids with
                        | none => .null
                        | some l => .arr (l.map .str))]

/-- The local validation and payload construction of
`CallWhiz.create_agent` (client.py lines 93–119): `ValueError` when
`not prompt and not stages` or `prompt and stages` (Python truthiness:
an empty string or empty list behaves like `None` here), otherwise the
request dict built from the required fields, the supplied optional
fields, and the truthy one of `prompt`/`stages`. -/
def create_agent_payload (name model voice : String)
    (prompt : Option String) (stages : Option (List CallStage))
    (description language accent first_message : Option String)
    (webhook_ids : Option (List String)) : Except PyExc Json :=
  if !truthyOptStr prompt && !truthyOptList stages then
    .error (.valueError "Either 'prompt' or 'stages' must be provided")
  else if truthyOptStr prompt && truthyOptList stages then
    .error (.valueError "Provide either 'prompt' for single-stage or 'stages' for multi-stage, not both")
  else
    .ok (.obj ([("name", .str name), ("model", .str model), ("voice", .str voice)]
      ++ optField "description" (description.map .str)
      ++ optField "language" (language.map .str)
      ++ optField "accent" (accent.map .str)
      ++ optField "first_message" (first_message.map .str)
      ++ optField "webhook_ids" (webhook_ids.map (fun l => .arr (l.map .str)))
      ++ (if truthyOptStr prompt then [("prompt", .str (prompt.getD ""))] else [])
      ++ (if truthyOptList stages then
            [("stages", .arr ((stages.getD []).map CallStage.model_dump))]
          else [])))

/-- The request payload built by `CallWhiz.update_agent` (client.py
lines 166–188): one `if x is not None: data[k] = x` per optional
parameter. -/
def update_agent_payload
    (name description model voice language accent prompt first_message : Option String)
    (webhook_ids : Option (List String)) (stages : Option (List CallStage))
    (status : Option String) : List (String × Json) :=
  optField "name" (name.map .str)
  ++ optField "description" (description.map .str)
  ++ optField "model" (model.map .str)
  ++ optField "voice" (voice.map .str)
  ++ optField "language" (language.map .str)
  ++ optField "accent" (accent.map .str)
  ++ optField "prompt" (prompt.map .str)
  ++ optField "first_message" (first_message.map .str)
  ++ optField "webhook_ids" (webhook_ids.map (fun l => .arr (l.map .str)))
  ++ optField "stages" (stages.map (fun l => .arr (l.map CallStage.model_dump)))
  ++ optField "status" (status.map .str)

/-- The request payload built by `CallWhiz.update_webhook` (client.py
lines 311–323).  `active` has type `Optional[bool]`, so `active=False`
passes the `is not None` guard and is sent. -/
def update_webhook_payload
    (url : Option String) (events : Option (List String))
    (agent_ids : Option (List String)) (active : Option Bool)
    (retry_policy : Option (List (String × Json)))
    (headers : Option (List (String × String))) : List (String × Json) :=
  optField "url" (url.map .str)
  ++ optField "events" (events.map (fun l => .arr (l.map .str)))
  ++ optField "agent_ids" (agent_ids.map (fun l => .arr (l.map .str)))
  ++ optField "active" (active.map .bool)
  ++ optField "retry_policy" (retry_policy.map .obj)
  ++ optField "headers" (headers.map (fun h => .obj (h.map (fun p => (p.1, .str p.2)))))

/-- The request payload built by `CallWhiz.update_user_webhook`
(client.py lines 410–428). -/
def update_user_webhook_payload
    (name description endpoint method : Option String)
    (parameters : Option (List (String × Json)))
    (headers : Option (List (String × String)))
    (auth_type auth_header_name auth_value : Option String) : List (String × Json) :=
  optField "name" (name.map .str)
  ++ optField "description" (description.map .str)
  ++ optField "endpoint" (endpoint.map .str)
  ++ optField "method" (method.map .str)
  ++ optField "parameters" (parameters.map .obj)
  ++ optField "headers" (headers.map (fun h => .obj (h.map (fun p => (p.1, .str p.2)))))
  ++ optField "auth_type" (auth_type.map .str)
  ++ optField "auth_header_name" (auth_header_name.map .str)
  ++ optField "auth_value" (auth_value.map .str)

/-- `CallWhiz.delete_agent`: `self._request("DELETE", f"/agents/{id}")`
then `return True`.  Any failure of `_request` propagates as the
exception; the returned boolean is the literal `True`. -/
def delete_agent (_agent_id : String) (t : TransportResult) : Except PyExc Bool :=
  match callwhizRequest t with
  | .error e => .error e
  | .ok _ => .ok true

/-- `CallWhiz.delete_webhook` (client.py lines 328–331). -/
def delete_webhook (_webhook_id : String) (t : TransportResult) : Except PyExc Bool :=
  match callwhizRequest t with
  | .error e => .error e
  | .ok _ => .ok true

/-- `CallWhiz.delete_user_webhook` (client.py lines 433–436). -/
def delete_user_webhook (_webhook_id : String) (t : TransportResult) : Except PyExc Bool :=
  match callwhizRequest t with
  | .error e => .error e
  | .ok _ => .ok true

/-- A required `str` field of a pydantic model: present and a string,
else validation fails. -/
def reqStrField (fields : List (String × Json)) (k : String) : Option String :=
  match jlookup fields k with
  | some (.str s) => some s
  | _ => none

/-- An `Optional[str] = None` field: absent or JSON `null` gives `None`,
a string gives the string, anything else fails validation. -/
def optStrField (fields : List (String × Json)) (k : String) : Option (Option String) :=
  match jlookup fields k with
  | none => some none
  | some .null => some none
  | some (.str s) => some (some s)
  | some _ => none

/-- A `bool` field with a default: absent gives the default, a JSON
boolean gives itself, anything else fails validation. -/
def boolFieldD (fields : List (String × Json)) (k : String) (d : Bool) : Option Bool :=
  match jlookup fields k with
  | none => some d
  | some (.bool b) => some b
  | some _ => none

/-- An `int` field with a default. -/
def intFieldD (fields : List (String × Json)) (k : String) (d : Int) : Option Int :=
  match jlookup fields k with
  | none => some d
  | some (.num n) => some n
  | some _ => none

/-- An `Optional[int]`/`Optional[float] = None` field (numbers are
modelled uniformly as `Json.num`). -/
def optNumField (fields : List (String × Json)) (k : String) : Option (Option Int) :=
  match jlookup fields k with
  | none => some none
  | some .null => some none
  | some (.num n) => some (some n)
  | some _ => none

/-- An `Optional[Dict[str, Any]] = None` field. -/
def optObjField (fields : List (String × Json)) (k : String) :
    Option (Option (List (String × Json))) :=
  match jlookup fields k with
  | none => some none
  | some .null => some none
  | some (.obj o) => some (some o)
  | some _ => none

/-- A JSON array all of whose elements must be strings
(`List[str]`). -/
def strList : List Json → Option (List String)
  | [] => some []
  | .str s :: rest => (strList rest).map (s :: ·)
  | _ => none

/-- A `List[str] = []` field: absent gives `[]`. -/
def strListFieldD (fields : List (String × Json)) (k : String) : Option (List String) :=
  match jlookup fields k with
  | none => some []
  | some (.arr items) => strList items
  | some _ => none

/-- `models.Agent`.  `datetime` fields are modelled by their wire
strings; their parsing is not part of any verified claim. -/
structure Agent where
  id : String
  name : String
  description : Option String
  model : String
  voice : String
  language : String
  accent : Option String
  status : String
  created_at : String
  updated_at : String
  webhook_ids : List String
  has_stages : Bool
  stage_count : Int

/-- `Agent(**payload)`: pydantic construction from a decoded JSON
object — required fields must be present with the right type, optional
fields default, extra keys are ignored; a non-dict payload or a type
mismatch raises (modelled as `none`). -/
def Agent.parse : Json → Option Agent
  | .obj fields => do
    let id ← reqStrField fields "id"
    let name ← reqStrField fields "name"
    let description ← optStrField fields "description"
    let model ← reqStrField fields "model"
    let voice ← reqStrField fields "voice"
    let language ← reqStrField fields "language"
    let accent ← optStrField fields "accent"
    let status ← reqStrField fields "status"
    let created_at ← reqStrField fields "created_at"
    let updated_at ← reqStrField fields "updated_at"
    let webhook_ids ← strListFieldD fields "webhook_ids"
    let has_stages ← boolFieldD fields "has_stages" false
    let stage_count ← intFieldD fields "stage_count" 0
    pure ⟨id, name, description, model, voice, language, accent, status,
          created_at, updated_at, webhook_ids, has_stages, stage_count⟩
  | _ => none

/-- `models.Call`. -/
structure Call where
  call_id : String
  status : String
  agent_id : String
  phone_number : String
  created_at : String
  estimated_cost : Option Int
  started_at : Option String
  ended_at : Option String
  duration : Option Int
  cost : Option Int
  outcome : Option String
  transcript_available : Bool
  recording_available : Bool
  context : Option (List (String × Json))
  metadata : Option (List (String × Json))

/-- `Call(**payload)`. -/
def Call.parse : Json → Option Call
  | .obj fields => do
    let call_id ← reqStrField fields "call_id"
    let status ← reqStrField fields "status"
    let agent_id ← reqStrField fields "agent_id"
    let phone_number ← reqStrField fields "phone_number"
    let created_at ← reqStrField fields "created_at"
    let estimated_cost ← optNumField fields "estimated_cost"
    let started_at ← optStrField fields "started_at"
    let ended_at ← optStrField fields "ended_at"
    let duration ← optNumField fields "duration"
    let cost ← optNumField fields "cost"
    let outcome ← optStrField fields "outcome"
    let transcript_available ← boolFieldD fields "transcript_available" false
    let recording_available ← boolFieldD fields "recording_available" false
    let context ← optObjField fields "context"
    let metadata ← optObjField fields "metadata"
    pure ⟨call_id, status, agent_id, phone_number, created_at, estimated_cost,
          started_at, ended_at, duration, cost, outcome, transcript_available,
          recording_available, context, metadata⟩
  | _ => none

/-- Element-wise parsing of a response array, as a list comprehension
`[Model(**x) for x in result]` does it: the first failing element
raises. -/
def parseList {α : Type} (p : Json → Option α) : List Json → Option (List α)
  | [] => some []
  | j :: rest =>
    match p j with
    | none => none
    | some a => (parseList p rest).map (a :: ·)

/-- `CallWhiz.list_agents` (client.py lines 129–148), response handling:
the unwrapped `data` payload must be an array (iterating anything else
raises `TypeError` at `Agent(**agent)`), and each element is parsed into
an `Agent`. -/
def list_agents (t : TransportResult) : Except PyExc (List Agent) :=
  match callwhizRequest t with
  | .error e => .error e
  | .ok (.arr items) =>
    match parseList Agent.parse items with
    | some agents => .ok agents
    | none => .error .validationError
  | .ok _ => .error .typeError

/-- `CallWhiz.list_calls` (client.py lines 230–251), response
handling. -/
def list_calls (t : TransportResult) : Except PyExc (List Call) :=
  match callwhizRequest t with
  | .error e => .error e
  | .ok (.arr items) =>
    match parseList Call.parse items with
    | some calls => .ok calls
    | none => .error .validationError
  | .ok _ => .error .typeError

/-- `CallWhiz.create_agent` end to end: local validation and payload
construction first (`create_agent_payload`), and only if that succeeds
the request (its transport outcome an input) and the parse of the
returned payload into an `Agent`. -/
def create_agent (name model voice : String)
    (prompt : Option String) (stages : Option (List CallStage))
    (description language accent first_message : Option String)
    (webhook_ids : Option (List String)) (t : TransportResult) : Except PyExc Agent :=
  match create_agent_payload name model voice prompt stages description
      language accent first_message webhook_ids with
  | .error e => .error e
  | .ok _ =>
    match callwhizRequest t with
    | .error e => .error e
    | .ok result =>
      match Agent.parse result with
      | some a => .ok a
      | none => .error .validationError

/-- Is a JSON value the literal `null`? -/
def Json.isNull : Json → Bool
  | .null => true
  | _ => false

/-- No entry of a payload dict has value JSON `null`. -/
def noNullValues (l : List (String × Json)) : Bool :=
  l.all (fun p => ! p.2.isNull)

/-- A delete result either raised or returned `True`: `false` exactly
when it returned `False` normally. -/
def deleteNeverFalse (r : Except PyExc Bool) : Bool :=
  match r with
  | .ok b => b
  | .error _ => true

section Lemmas

/-- Lookup distributes over appended payload segments, preferring the
left one. -/
theorem jlookup_append (l₁ l₂ : List (String × Json)) (k : String) :
    jlookup (l₁ ++ l₂) k = (jlookup l₁ k).or (jlookup l₂ k) := by
  induction l₁ with
  | nil => simp [jlookup]
  | cons p rest ih =>
    obtain ⟨k', v⟩ := p
    by_cases h : k' = k <;> simp [jlookup, h, ih]

@[simp]
theorem jlookup_optField_self (k : String) (v : Option Json) :
    jlookup (optField k v) k = v := by
  cases v <;> simp [optField, jlookup]

@[simp]
theorem jlookup_optField_ne (k k' : String) (v : Option Json) (h : ¬k' = k) :
    jlookup (optField k' v) k = none := by
  cases v <;> simp [optField, jlookup, h]

@[simp]
theorem noNullValues_append (l₁ l₂ : List (String × Json)) :
    noNullValues (l₁ ++ l₂) = (noNullValues l₁ && noNullValues l₂) := by
  simp [noNullValues]

@[simp]
theorem noNullValues_optField (k : String) (v : Option Json) :
    noNullValues (optField k v) = Option.all (fun j => ! j.isNull) v := by
  cases v <;> simp [optField, noNullValues]

/-- Any optional payload entry built from an encoder that never
produces `null` passes the no-null check. -/
theorem optAllNotNull {α : Type} (x : Option α) (f : α → Json)
    (h : ∀ a, (f a).isNull = false) :
    Option.all (fun j => ! j.isNull) (x.map f) = true := by
  cases x <;> simp [h]

/-- `parseList` preserves length. -/
theorem parseList_length {α : Type} (p : Json → Option α) :
    ∀ (items : List Json) (out : List α),
      parseList p items = some out → out.length = items.length := by
  intro items
  induction items with
  | nil => intro out h; simp [parseList] at h; simp [← h]
  | cons j rest ih =>
    intro out h
    simp only [parseList] at h
    cases hj : p j with
    | none => rw [hj] at h; simp at h
    | some a =>
      rw [hj] at h
      cases hr : parseList p rest with
      | none => rw [hr] at h; simp at h
      | some tl =>
        rw [hr] at h
        simp at h
        simp [← h, ih tl hr]

/-- `parseList` parses element-wise in order. -/
theorem parseList_get {α : Type} (p : Json → Option α) :
    ∀ (items : List Json) (out : List α),
      parseList p items = some out →
      ∀ (i : Nat) (hi : i < items.length) (ho : i < out.length),
        p (items.get ⟨i, hi⟩) = some (out.get ⟨i, ho⟩) := by
  intro items
  induction items with
  | nil => intro out h i hi; exact absurd hi (by simp)
  | cons j rest ih =>
    intro out h i hi ho
    simp only [parseList] at h
    cases hj : p j with
    | none => rw [hj] at h; simp at h
    | some a =>
      rw [hj] at h
      cases hr : parseList p rest with
      | none => rw [hr] at h; simp at h
      | some tl =>
        rw [hr] at h
        simp at h
        subst h
        cases i with
        | zero => simpa using hj
        | succ n =>
          simp only [List.get_cons_succ]
          exact ih tl hr n (by simpa using hi) (by simpa using ho)

end Lemmas

/-- C1: for every HTTP response whose status is not in the success
range, `_request` raises exactly `AuthenticationError` for 401,
`NotFoundError` for 404 and `RateLimitError` for 429 — in particular
never the generic `CallWhizError` for those three statuses, whatever
the response body. -/
theorem c1_specific_errors_for_401_404_429 (r : HTTPResponse)
    (_h : statusIsSuccess r.status = false) :
    (r.status = 401 →
      callwhizRequest (.success r) = .error (.authenticationError (.str "Invalid API key"))) ∧
    (r.status = 404 →
      callwhizRequest (.success r) = .error (.notFoundError (.str "Resource not found"))) ∧
    (r.status = 429 →
      callwhizRequest (.success r) = .error (.rateLimitError (.str "Rate limit exceeded"))) := by
  refine ⟨fun hs => ?_, fun hs => ?_, fun hs => ?_⟩ <;>
    simp [callwhizRequest, processResponse, statusError, statusIsSuccess, hs]

/-- Witness for C1 at statuses 401, 404 and 429. -/
theorem c1_witness :
    statusIsSuccess 401 = false ∧
    callwhizRequest (.success ⟨401, "", none⟩)
      = .error (.authenticationError (.str "Invalid API key")) ∧
    callwhizRequest (.success ⟨404, "", none⟩)
      = .error (.notFoundError (.str "Resource not found")) ∧
    callwhizRequest (.success ⟨429, "", none⟩)
      = .error (.rateLimitError (.str "Rate limit exceeded")) :=
  ⟨rfl,
   (c1_specific_errors_for_401_404_429 ⟨401, "", none⟩ rfl).1 rfl,
   (c1_specific_errors_for_401_404_429 ⟨404, "", none⟩ rfl).2.1 rfl,
   (c1_specific_errors_for_401_404_429 ⟨429, "", none⟩ rfl).2.2 rfl⟩

/-- C7: every transport-level failure (`httpx.RequestError`) is wrapped
into the generic `CallWhizError` whose message is exactly
`"Request failed: "` followed by the underlying cause — so the cause is
preserved, the error is not swallowed, and what escapes is an SDK
exception. -/
theorem c7_transport_failure_wrapped (cause : String) :
    callwhizRequest (.requestError cause)
      = .error (.callWhizError (.str ("Request failed: " ++ cause))) ∧
    (PyExc.callWhizError (.str ("Request failed: " ++ cause))).isCallWhizError = true :=
  ⟨rfl, rfl⟩

/-- C8: `delete_agent`, `delete_webhook` and `delete_user_webhook`
either propagate an exception or return `True`; none of them ever
returns `False`, for any id and any transport outcome. -/
theorem c8_delete_never_false (id : String) (t : TransportResult) :
    deleteNeverFalse (delete_agent id t) = true ∧
    deleteNeverFalse (delete_webhook id t) = true ∧
    deleteNeverFalse (delete_user_webhook id t) = true := by
  refine ⟨?_, ?_, ?_⟩ <;>
    (cases h : callwhizRequest t <;>
      simp [delete_agent, delete_webhook, delete_user_webhook, deleteNeverFalse, h])

/-- C10: on a success-status response whose JSON envelope is an object
with a truthy `success` field, `_request` raises `KeyError` when the
`"data"` key is absent — an exception outside the SDK's `CallWhizError`
taxonomy — and returns the `"data"` value whenever the key is present,
so under the precondition that every truthy-success envelope carries a
`"data"` key the `KeyError` branch is unreachable. -/
theorem c10_missing_data_key_raises_keyerror (r : HTTPResponse)
    (fields : List (String × Json))
    (hs : statusIsSuccess r.status = true)
    (hb : r.body = some (.obj fields))
    (ht : truthyOpt (jlookup fields "success") = true) :
    (jlookup fields "data" = none →
      callwhizRequest (.success r) = .error (.keyError "data") ∧
      (PyExc.keyError "data").isCallWhizError = false) ∧
    (∀ d, jlookup fields "data" = some d →
      callwhizRequest (.success r) = .ok d) := by
  refine ⟨fun hd => ⟨?_, rfl⟩, fun d hd => ?_⟩ <;>
    simp [callwhizRequest, processResponse, hs, hb, ht, hd]

/-- Witness for C10: a 200 response with envelope
`{"success": true}` raises `KeyError("data")`, and with
`{"success": true, "data": 1}` returns `1`. -/
theorem c10_witness :
    callwhizRequest (.success ⟨200, "", some (.obj [("success", .bool true)])⟩)
      = .error (.keyError "data") ∧
    callwhizRequest (.success
        ⟨200, "", some (.obj [("success", .bool true), ("data", .num 1)])⟩)
      = .ok (.num 1) :=
  ⟨((c10_missing_data_key_raises_keyerror ⟨200, "", some (.obj [("success", .bool true)])⟩
      [("success", .bool true)] rfl rfl rfl).1 rfl).1,
   (c10_missing_data_key_raises_keyerror
      ⟨200, "", some (.obj [("success", .bool true), ("data", .num 1)])⟩
      [("success", .bool true), ("data", .num 1)] rfl rfl rfl).2 (.num 1) rfl⟩

/-- C2 counterexample: a 200 response with envelope
`{"success": false, "error": "boom"}` makes `_request` raise
`AttributeError` (from `error_info.get` on a string), not the generic
`CallWhizError` the claim promises for every success-status envelope
with `success` false. -/
theorem c2_counterexample :
    callwhizRequest (.success
        ⟨200, "", some (.obj [("success", .bool false), ("error", .str "boom")])⟩)
      = .error .attributeError ∧
    PyExc.attributeError.isCallWhizError = false :=
  ⟨rfl, rfl⟩

/-- C2 (amended): for a success-status response whose JSON envelope is
an object with `success` equal to `false`, and whose `"error"` field is
absent or an object, `_request` raises the generic `CallWhizError`
carrying `error.message` verbatim when present and the fallback
`"Unknown error"` when absent — it never returns normally.  (When
`"error"` is present but not an object, an `AttributeError` escapes
instead, as the counterexample shows.) -/
theorem c2_envelope_failure_raises_generic (r : HTTPResponse)
    (fields : List (String × Json))
    (hs : statusIsSuccess r.status = true)
    (hb : r.body = some (.obj fields))
    (hf : jlookup fields "success" = some (.bool false)) :
    (jlookup fields "error" = none →
      callwhizRequest (.success r) = .error (.callWhizError (.str "Unknown error"))) ∧
    (∀ errFields, jlookup fields "error" = some (.obj errFields) →
      (∀ m, jlookup errFields "message" = some m →
        callwhizRequest (.success r) = .error (.callWhizError m)) ∧
      (jlookup errFields "message" = none →
        callwhizRequest (.success r) = .error (.callWhizError (.str "Unknown error")))) := by
  refine ⟨fun he => ?_, fun errFields he => ⟨fun m hm => ?_, fun hm => ?_⟩⟩ <;>
    simp [callwhizRequest, processResponse, truthyOpt, truthy, hs, hb, hf, he]
  · rw [hm]
  · rw [hm]

/-- Witness for C2 (amended): message present, message absent, and
`error` absent. -/
theorem c2_witness :
    callwhizRequest (.success ⟨200, "",
        some (.obj [("success", .bool false),
                    ("error", .obj [("message", .str "bad input")])])⟩)
      = .error (.callWhizError (.str "bad input")) ∧
    callwhizRequest (.success ⟨200, "",
        some (.obj [("success", .bool false), ("error", .obj [])])⟩)
      = .error (.callWhizError (.str "Unknown error")) ∧
    callwhizRequest (.success ⟨200, "", some (.obj [("success", .bool false)])⟩)
      = .error (.callWhizError (.str "Unknown error")) :=
  ⟨((c2_envelope_failure_raises_generic
      ⟨200, "", some (.obj [("success", .bool false),
                            ("error", .obj [("message", .str "bad input")])])⟩
      [("success", .bool false), ("error", .obj [("message", .str "bad input")])]
      rfl rfl rfl).2
      [("message", .str "bad input")] rfl).1 (.str "bad input") rfl,
   ((c2_envelope_failure_raises_generic
      ⟨200, "", some (.obj [("success", .bool false), ("error", .obj [])])⟩
      [("success", .bool false), ("error", .obj [])] rfl rfl rfl).2 [] rfl).2 rfl,
   (c2_envelope_failure_raises_generic
      ⟨200, "", some (.obj [("success", .bool false)])⟩
      [("success", .bool false)] rfl rfl rfl).1 rfl⟩

/-- C5 counterexample: a 500 response whose JSON body is
`{"error": {"message": "boom"}}` makes `_request` raise the generic
`CallWhizError` with message exactly `"boom"`, which contains neither
the status code `500` nor the response body — refuting the claim that
the message always carries both. -/
theorem c5_counterexample :
    callwhizRequest (.success ⟨500, "raw body text",
        some (.obj [("error", .obj [("message", .str "boom")])])⟩)
      = .error (.callWhizError (.str "boom")) ∧
    ¬ ("500".toList <:+: "boom".toList) :=
  ⟨rfl, by decide⟩

/-- C5 (amended): for every non-success status other than 401/404/429,
`_request` raises the generic `CallWhizError`; its message is the
parsed body's `error.message` verbatim when the body is a JSON object
carrying one, the string `"HTTP <status>"` when the body is a JSON
object without one (error field absent or message absent), and the
string `"HTTP <status>: <body text>"` — carrying status code and body —
only when the body does not parse as JSON (or the parsed body or its
`error` value is not an object, where the `AttributeError` raised by
`.get` is swallowed by the bare `except:`). -/
theorem c5_generic_error_message_cases (r : HTTPResponse)
    (h : statusIsSuccess r.status = false)
    (h1 : r.status ≠ 401) (h4 : r.status ≠ 404) (h9 : r.status ≠ 429) :
    callwhizRequest (.success r) = .error (.callWhizError (genericStatusMsg r)) ∧
    (r.body = none →
      genericStatusMsg r = .str ("HTTP " ++ toString r.status ++ ": " ++ r.text)) ∧
    (∀ fields, r.body = some (.obj fields) →
      (jlookup fields "error" = none →
        genericStatusMsg r = .str ("HTTP " ++ toString r.status)) ∧
      (∀ errFields, jlookup fields "error" = some (.obj errFields) →
        (∀ m, jlookup errFields "message" = some m → genericStatusMsg r = m) ∧
        (jlookup errFields "message" = none →
          genericStatusMsg r = .str ("HTTP " ++ toString r.status))) ∧
      (∀ e, jlookup fields "error" = some e → (∀ ef, e ≠ .obj ef) →
        genericStatusMsg r = .str ("HTTP " ++ toString r.status ++ ": " ++ r.text))) ∧
    (∀ b, r.body = some b → (∀ bf, b ≠ .obj bf) →
      genericStatusMsg r = .str ("HTTP " ++ toString r.status ++ ": " ++ r.text)) := by
  refine ⟨?_, fun hb => ?_, fun fields hb => ⟨fun he => ?_,
    fun errFields he => ⟨fun m hm => ?_, fun hm => ?_⟩, fun e he hne => ?_⟩,
    fun b hb hnb => ?_⟩
  · simp [callwhizRequest, processResponse, h, statusError, h1, h4, h9]
  · simp [genericStatusMsg, hb]
  · simp [genericStatusMsg, hb, he]
  · simp [genericStatusMsg, hb, he, hm]
  · simp [genericStatusMsg, hb, he, hm]
  · cases e <;> first
      | exact absurd rfl (hne _)
      | simp [genericStatusMsg, hb, he]
  · cases b <;> first
      | exact absurd rfl (hnb _)
      | simp [genericStatusMsg, hb]

/-- Witness for C5 (amended) at a concrete 500 response with an
`error.message` body. -/
theorem c5_witness :
    callwhizRequest (.success ⟨500, "x",
        some (.obj [("error", .obj [("message", .str "boom")])])⟩)
      = .error (.callWhizError (.str "boom")) :=
  ((c5_generic_error_message_cases
      ⟨500, "x", some (.obj [("error", .obj [("message", .str "boom")])])⟩
      rfl (by decide) (by decide) (by decide)).1).trans (by rfl)

/-- C3 counterexample: `create_agent` called with `prompt=""` supplied
and `stages` omitted — exactly one of the two supplied — nevertheless
raises the local `ValueError`, because the source tests Python
truthiness (`if not prompt and not stages`), not whether the arguments
were supplied. -/
theorem c3_counterexample :
    create_agent_payload "X" "nano" "Calvin" (some "") none none none none none none
      = .error (.valueError "Either 'prompt' or 'stages' must be provided") :=
  rfl

/-- C3 (amended): `create_agent` raises a local `ValueError` — for any
transport outcome, i.e. before the request matters — exactly when
neither or both of `prompt` and `stages` are *truthy* (non-`None` and
non-empty), and builds the request payload whenever exactly one of the
two is truthy; a supplied-but-empty `prompt` or `stages` behaves as if
omitted. -/
theorem c3_create_agent_validation (name model voice : String)
    (prompt : Option String) (stages : Option (List CallStage))
    (description language accent first_message : Option String)
    (webhook_ids : Option (List String)) :
    (truthyOptStr prompt = false → truthyOptList stages = false →
      ∀ t, create_agent name model voice prompt stages description language
          accent first_message webhook_ids t
        = .error (.valueError "Either 'prompt' or 'stages' must be provided")) ∧
    (truthyOptStr prompt = true → truthyOptList stages = true →
      ∀ t, create_agent name model voice prompt stages description language
          accent first_message webhook_ids t
        = .error (.valueError
            "Provide either 'prompt' for single-stage or 'stages' for multi-stage, not both")) ∧
    (truthyOptStr prompt ≠ truthyOptList stages →
      ∃ payload, create_agent_payload name model voice prompt stages description
          language accent first_message webhook_ids = .ok payload) := by
  refine ⟨fun hp hs t => ?_, fun hp hs t => ?_, fun hne => ?_⟩
  · simp [create_agent, create_agent_payload, hp, hs]
  · simp [create_agent, create_agent_payload, hp, hs]
  · cases hp : truthyOptStr prompt <;> cases hs : truthyOptList stages <;>
      first
        | (rw [hp, hs] at hne; exact absurd rfl hne)
        | simp [create_agent_payload, hp, hs]

/-- Witness for C3 (amended): the empty-call `ValueError`, the
both-truthy `ValueError`, and a payload for a truthy prompt alone. -/
theorem c3_witness :
    create_agent "X" "nano" "Calvin" none none none none none none none
        (.requestError "net down")
      = .error (.valueError "Either 'prompt' or 'stages' must be provided") ∧
    create_agent "X" "nano" "Calvin" (some "hi") (some [⟨"s1", "p1", none⟩])
        none none none none none (.requestError "net down")
      = .error (.valueError
          "Provide either 'prompt' for single-stage or 'stages' for multi-stage, not both") ∧
    ∃ payload, create_agent_payload "X" "nano" "Calvin" (some "hi") none
        none none none none none = .ok payload :=
  ⟨(c3_create_agent_validation "X" "nano" "Calvin" none none none none none
      none none).1 rfl rfl _,
   (c3_create_agent_validation "X" "nano" "Calvin" (some "hi")
      (some [⟨"s1", "p1", none⟩]) none none none none none).2.1 (by decide) rfl _,
   (c3_create_agent_validation "X" "nano" "Calvin" (some "hi") none none none
      none none none).2.2 (by decide)⟩

/-- C4: for each update call (`update_agent`, `update_webhook`,
`update_user_webhook`) and each optional parameter, the outgoing
payload's entry at that parameter's key is exactly the encoding of the
supplied value — so an omitted (`none`) parameter contributes no key at
all (`jlookup` is `none` exactly when the key is absent), and a
parameter supplied with any value, falsy ones like `False`, `0` or `""`
included, is sent encoded verbatim, since the source guards are
`is not None`. -/
theorem c4_update_payload_field_keys :
    (∀ (name description model voice language accent prompt first_message : Option String)
       (webhook_ids : Option (List String)) (stages : Option (List CallStage))
       (status : Option String),
      jlookup (update_agent_payload name description model voice language accent prompt
          first_message webhook_ids stages status) "name" = name.map .str ∧
      jlookup (update_agent_payload name description model voice language accent prompt
          first_message webhook_ids stages status) "description" = description.map .str ∧
      jlookup (update_agent_payload name description model voice language accent prompt
          first_message webhook_ids stages status) "model" = model.map .str ∧
      jlookup (update_agent_payload name description model voice language accent prompt
          first_message webhook_ids stages status) "voice" = voice.map .str ∧
      jlookup (update_agent_payload name description model voice language accent prompt
          first_message webhook_ids stages status) "language" = language.map .str ∧
      jlookup (update_agent_payload name description model voice language accent prompt
          first_message webhook_ids stages status) "accent" = accent.map .str ∧
      jlookup (update_agent_payload name description model voice language accent prompt
          first_message webhook_ids stages status) "prompt" = prompt.map .str ∧
      jlookup (update_agent_payload name description model voice language accent prompt
          first_message webhook_ids stages status) "first_message" = first_message.map .str ∧
      jlookup (update_agent_payload name description model voice language accent prompt
          first_message webhook_ids stages status) "webhook_ids"
        = webhook_ids.map (fun l => .arr (l.map .str)) ∧
      jlookup (update_agent_payload name description model voice language accent prompt
          first_message webhook_ids stages status) "stages"
        = stages.map (fun l => .arr (l.map CallStage.model_dump)) ∧
      jlookup (update_agent_payload name description model voice language accent prompt
          first_message webhook_ids stages status) "status" = status.map .str) ∧
    (∀ (url : Option String) (events agent_ids : Option (List String))
       (active : Option Bool) (retry_policy : Option (List (String × Json)))
       (headers : Option (List (String × String))),
      jlookup (update_webhook_payload url events agent_ids active retry_policy headers)
          "url" = url.map .str ∧
      jlookup (update_webhook_payload url events agent_ids active retry_policy headers)
          "events" = events.map (fun l => .arr (l.map .str)) ∧
      jlookup (update_webhook_payload url events agent_ids active retry_policy headers)
          "agent_ids" = agent_ids.map (fun l => .arr (l.map .str)) ∧
      jlookup (update_webhook_payload url events agent_ids active retry_policy headers)
          "active" = active.map .bool ∧
      jlookup (update_webhook_payload url events agent_ids active retry_policy headers)
          "retry_policy" = retry_policy.map .obj ∧
      jlookup (update_webhook_payload url events agent_ids active retry_policy headers)
          "headers" = headers.map (fun h => .obj (h.map (fun p => (p.1, .str p.2))))) ∧
    (∀ (name description endpoint method : Option String)
       (parameters : Option (List (String × Json)))
       (headers : Option (List (String × String)))
       (auth_type auth_header_name auth_value : Option String),
      jlookup (update_user_webhook_payload name description endpoint method parameters
          headers auth_type auth_header_name auth_value) "name" = name.map .str ∧
      jlookup (update_user_webhook_payload name description endpoint method parameters
          headers auth_type auth_header_name auth_value) "description"
        = description.map .str ∧
      jlookup (update_user_webhook_payload name description endpoint method parameters
          headers auth_type auth_header_name auth_value) "endpoint" = endpoint.map .str ∧
      jlookup (update_user_webhook_payload name description endpoint method parameters
          headers auth_type auth_header_name auth_value) "method" = method.map .str ∧
      jlookup (update_user_webhook_payload name description endpoint method parameters
          headers auth_type auth_header_name auth_value) "parameters"
        = parameters.map .obj ∧
      jlookup (update_user_webhook_payload name description endpoint method parameters
          headers auth_type auth_header_name auth_value) "headers"
        = headers.map (fun h => .obj (h.map (fun p => (p.1, .str p.2)))) ∧
      jlookup (update_user_webhook_payload name description endpoint method parameters
          headers auth_type auth_header_name auth_value) "auth_type"
        = auth_type.map .str ∧
      jlookup (update_user_webhook_payload name description endpoint method parameters
          headers auth_type auth_header_name auth_value) "auth_header_name"
        = auth_header_name.map .str ∧
      jlookup (update_user_webhook_payload name description endpoint method parameters
          headers auth_type auth_header_name auth_value) "auth_value"
        = auth_value.map .str) := by
  refine ⟨fun _ _ _ _ _ _ _ _ _ _ _ => ?_, fun _ _ _ _ _ _ => ?_,
    fun _ _ _ _ _ _ _ _ _ => ?_⟩
  · simp [update_agent_payload, jlookup_append]
  · simp [update_webhook_payload, jlookup_append]
  · simp [update_user_webhook_payload, jlookup_append]

/-- C9: explicitly passing `None` for an optional update parameter is
the same input as omitting it (Python defaults every optional parameter
to `None`), so the all-`None` calls produce the empty payload — and no
update payload ever carries a top-level JSON `null` value, hence no
remote field can be cleared to null through these methods. -/
theorem c9_none_equals_omitted_no_null
    (name description model voice language accent prompt first_message : Option String)
    (webhook_ids : Option (List String)) (stages : Option (List CallStage))
    (status : Option String)
    (url : Option String) (events agent_ids : Option (List String))
    (active : Option Bool) (retry_policy : Option (List (String × Json)))
    (strHeaders : Option (List (String × String)))
    (endpoint method : Option String) (parameters : Option (List (String × Json)))
    (auth_type auth_header_name auth_value : Option String) :
    update_agent_payload none none none none none none none none none none none = [] ∧
    update_webhook_payload none none none none none none = [] ∧
    update_user_webhook_payload none none none none none none none none none = [] ∧
    noNullValues (update_agent_payload name description model voice language accent
      prompt first_message webhook_ids stages status) = true ∧
    noNullValues (update_webhook_payload url events agent_ids active retry_policy
      strHeaders) = true ∧
    noNullValues (update_user_webhook_payload name description endpoint method
      parameters strHeaders auth_type auth_header_name auth_value) = true := by
  refine ⟨rfl, rfl, rfl, ?_, ?_, ?_⟩
  · simp only [update_agent_payload, noNullValues_append, noNullValues_optField,
      Bool.and_eq_true]
    exact ⟨⟨⟨⟨⟨⟨⟨⟨⟨⟨optAllNotNull _ _ fun _ => rfl, optAllNotNull _ _ fun _ => rfl⟩,
      optAllNotNull _ _ fun _ => rfl⟩, optAllNotNull _ _ fun _ => rfl⟩,
      optAllNotNull _ _ fun _ => rfl⟩, optAllNotNull _ _ fun _ => rfl⟩,
      optAllNotNull _ _ fun _ => rfl⟩, optAllNotNull _ _ fun _ => rfl⟩,
      optAllNotNull _ _ fun _ => rfl⟩, optAllNotNull _ _ fun _ => rfl⟩,
      optAllNotNull _ _ fun _ => rfl⟩
  · simp only [update_webhook_payload, noNullValues_append, noNullValues_optField,
      Bool.and_eq_true]
    exact ⟨⟨⟨⟨⟨optAllNotNull _ _ fun _ => rfl, optAllNotNull _ _ fun _ => rfl⟩,
      optAllNotNull _ _ fun _ => rfl⟩, optAllNotNull _ _ fun _ => rfl⟩,
      optAllNotNull _ _ fun _ => rfl⟩, optAllNotNull _ _ fun _ => rfl⟩
  · simp only [update_user_webhook_payload, noNullValues_append, noNullValues_optField,
      Bool.and_eq_true]
    exact ⟨⟨⟨⟨⟨⟨⟨⟨optAllNotNull _ _ fun _ => rfl, optAllNotNull _ _ fun _ => rfl⟩,
      optAllNotNull _ _ fun _ => rfl⟩, optAllNotNull _ _ fun _ => rfl⟩,
      optAllNotNull _ _ fun _ => rfl⟩, optAllNotNull _ _ fun _ => rfl⟩,
      optAllNotNull _ _ fun _ => rfl⟩, optAllNotNull _ _ fun _ => rfl⟩,
      optAllNotNull _ _ fun _ => rfl⟩

/-- C6: list operations round-trip.  When `_request` unwraps a
response whose `data` payload is an array of `N` objects and every
element parses, `list_agents`/`list_calls` return exactly `N` typed
records, in array order, the `i`-th record parsed from the `i`-th
payload object; and a record built by the pydantic-style parse carries
field for field exactly the source object's values, absent optional
fields taking the model defaults (the defaulting lives in the
`…FieldD`/`optStrField` readers). -/
theorem c6_list_operations_roundtrip :
    (∀ (t : TransportResult) (items : List Json) (agents : List Agent),
      callwhizRequest t = .ok (.arr items) →
      parseList Agent.parse items = some agents →
      list_agents t = .ok agents ∧
      agents.length = items.length ∧
      ∀ (i : Nat) (hi : i < items.length) (ha : i < agents.length),
        Agent.parse (items.get ⟨i, hi⟩) = some (agents.get ⟨i, ha⟩)) ∧
    (∀ (t : TransportResult) (items : List Json) (calls : List Call),
      callwhizRequest t = .ok (.arr items) →
      parseList Call.parse items = some calls →
      list_calls t = .ok calls ∧
      calls.length = items.length ∧
      ∀ (i : Nat) (hi : i < items.length) (hc : i < calls.length),
        Call.parse (items.get ⟨i, hi⟩) = some (calls.get ⟨i, hc⟩)) ∧
    (∀ (fields : List (String × Json)) (id name : String)
       (description : Option String) (model voice language : String)
       (accent : Option String) (status created_at updated_at : String)
       (webhook_ids : List String) (has_stages : Bool) (stage_count : Int),
      reqStrField fields "id" = some id →
      reqStrField fields "name" = some name →
      optStrField fields "description" = some description →
      reqStrField fields "model" = some model →
      reqStrField fields "voice" = some voice →
      reqStrField fields "language" = some language →
      optStrField fields "accent" = some accent →
      reqStrField fields "status" = some status →
      reqStrField fields "created_at" = some created_at →
      reqStrField fields "updated_at" = some updated_at →
      strListFieldD fields "webhook_ids" = some webhook_ids →
      boolFieldD fields "has_stages" false = some has_stages →
      intFieldD fields "stage_count" 0 = some stage_count →
      Agent.parse (.obj fields) = some ⟨id, name, description, model, voice,
        language, accent, status, created_at, updated_at, webhook_ids,
        has_stages, stage_count⟩) ∧
    (∀ (fields : List (String × Json))
       (call_id status agent_id phone_number created_at : String)
       (estimated_cost : Option Int) (started_at ended_at : Option String)
       (duration cost : Option Int) (outcome : Option String)
       (transcript_available recording_available : Bool)
       (context metadata : Option (List (String × Json))),
      reqStrField fields "call_id" = some call_id →
      reqStrField fields "status" = some status →
      reqStrField fields "agent_id" = some agent_id →
      reqStrField fields "phone_number" = some phone_number →
      reqStrField fields "created_at" = some created_at →
      optNumField fields "estimated_cost" = some estimated_cost →
      optStrField fields "started_at" = some started_at →
      optStrField fields "ended_at" = some ended_at →
      optNumField fields "duration" = some duration →
      optNumField fields "cost" = some cost →
      optStrField fields "outcome" = some outcome →
      boolFieldD fields "transcript_available" false = some transcript_available →
      boolFieldD fields "recording_available" false = some recording_available →
      optObjField fields "context" = some context →
      optObjField fields "metadata" = some metadata →
      Call.parse (.obj fields) = some ⟨call_id, status, agent_id, phone_number,
        created_at, estimated_cost, started_at, ended_at, duration, cost, outcome,
        transcript_available, recording_available, context, metadata⟩) := by
  refine ⟨fun t items agents hreq hparse => ?_, fun t items calls hreq hparse => ?_,
    fun fields id name description model voice language accent status created_at
      updated_at webhook_ids has_stages stage_count
      h1 h2 h3 h4 h5 h6 h7 h8 h9 h10 h11 h12 h13 => ?_,
    fun fields call_id status agent_id phone_number created_at estimated_cost
      started_at ended_at duration cost outcome transcript_available
      recording_available context metadata
      h1 h2 h3 h4 h5 h6 h7 h8 h9 h10 h11 h12 h13 h14 h15 => ?_⟩
  · exact ⟨by simp [list_agents, hreq, hparse],
      parseList_length _ _ _ hparse, parseList_get _ _ _ hparse⟩
  · exact ⟨by simp [list_calls, hreq, hparse],
      parseList_length _ _ _ hparse, parseList_get _ _ _ hparse⟩
  · simp [Agent.parse, h1, h2, h3, h4, h5, h6, h7, h8, h9, h10, h11, h12, h13]
  · simp [Call.parse, h1, h2, h3, h4, h5, h6, h7, h8, h9, h10, h11, h12, h13, h14, h15]

/-- Witness for C6: a two-element agent list (one record exercising the
optional defaults) and a one-element call list, parsed from concrete
success envelopes. -/
theorem c6_witness :
    list_agents (.success ⟨200, "", some (.obj [("success", .bool true),
        ("data", .arr
          [.obj [("id", .str "a1"), ("name", .str "X"), ("model", .str "nano"),
                 ("voice", .str "Calvin"), ("language", .str "en"),
                 ("accent", .null), ("status", .str "active"),
                 ("created_at", .str "2024-01-01T00:00:00Z"),
                 ("updated_at", .str "2024-01-01T00:00:00Z"),
                 ("webhook_ids", .arr []), ("has_stages", .bool false),
                 ("stage_count", .num 0)],
           .obj [("id", .str "a2"), ("name", .str "Y"),
                 ("description", .str "d"), ("model", .str "pro"),
                 ("voice", .str "Olivia"), ("language", .str "es"),
                 ("status", .str "draft"), ("created_at", .str "2024-02-02"),
                 ("updated_at", .str "2024-02-02"),
                 ("webhook_ids", .arr [.str "w1"])]])])⟩)
      = .ok [⟨"a1", "X", none, "nano", "Calvin", "en", none, "active",
              "2024-01-01T00:00:00Z", "2024-01-01T00:00:00Z", [], false, 0⟩,
             ⟨"a2", "Y", some "d", "pro", "Olivia", "es", none, "draft",
              "2024-02-02", "2024-02-02", ["w1"], false, 0⟩] ∧
    list_calls (.success ⟨200, "", some (.obj [("success", .bool true),
        ("data", .arr
          [.obj [("call_id", .str "c1"), ("status", .str "completed"),
                 ("agent_id", .str "a1"), ("phone_number", .str "+15550100"),
                 ("created_at", .str "2024-01-01T00:00:00Z"),
                 ("duration", .num 60)]])])⟩)
      = .ok [⟨"c1", "completed", "a1", "+15550100", "2024-01-01T00:00:00Z",
              none, none, none, some 60, none, none, false, false, none, none⟩] :=
  ⟨(c6_list_operations_roundtrip.1
      (.success ⟨200, "", some (.obj [("success", .bool true),
        ("data", .arr
          [.obj [("id", .str "a1"), ("name", .str "X"), ("model", .str "nano"),
                 ("voice", .str "Calvin"), ("language", .str "en"),
                 ("accent", .null), ("status", .str "active"),
                 ("created_at", .str "2024-01-01T00:00:00Z"),
                 ("updated_at", .str "2024-01-01T00:00:00Z"),
                 ("webhook_ids", .arr []), ("has_stages", .bool false),
                 ("stage_count", .num 0)],
           .obj [("id", .str "a2"), ("name", .str "Y"),
                 ("description", .str "d"), ("model", .str "pro"),
                 ("voice", .str "Olivia"), ("language", .str "es"),
                 ("status", .str "draft"), ("created_at", .str "2024-02-02"),
                 ("updated_at", .str "2024-02-02"),
                 ("webhook_ids", .arr [.str "w1"])]])])⟩)
      [.obj [("id", .str "a1"), ("name", .str "X"), ("model", .str "nano"),
             ("voice", .str "Calvin"), ("language", .str "en"),
             ("accent", .null), ("status", .str "active"),
             ("created_at", .str "2024-01-01T00:00:00Z"),
             ("updated_at", .str "2024-01-01T00:00:00Z"),
             ("webhook_ids", .arr []), ("has_stages", .bool false),
             ("stage_count", .num 0)],
       .obj [("id", .str "a2"), ("name", .str "Y"),
             ("description", .str "d"), ("model", .str "pro"),
             ("voice", .str "Olivia"), ("language", .str "es"),
             ("status", .str "draft"), ("created_at", .str "2024-02-02"),
             ("updated_at", .str "2024-02-02"),
             ("webhook_ids", .arr [.str "w1"])]]
      [⟨"a1", "X", none, "nano", "Calvin", "en", none, "active",
        "2024-01-01T00:00:00Z", "2024-01-01T00:00:00Z", [], false, 0⟩,
       ⟨"a2", "Y", some "d", "pro", "Olivia", "es", none, "draft",
        "2024-02-02", "2024-02-02", ["w1"], false, 0⟩] rfl rfl).1,
   (c6_list_operations_roundtrip.2.1
      (.success ⟨200, "", some (.obj [("success", .bool true),
        ("data", .arr
          [.obj [("call_id", .str "c1"), ("status", .str "completed"),
                 ("agent_id", .str "a1"), ("phone_number", .str "+15550100"),
                 ("created_at", .str "2024-01-01T00:00:00Z"),
                 ("duration", .num 60)]])])⟩)
      [.obj [("call_id", .str "c1"), ("status", .str "completed"),
             ("agent_id", .str "a1"), ("phone_number", .str "+15550100"),
             ("created_at", .str "2024-01-01T00:00:00Z"),
             ("duration", .num 60)]]
      [⟨"c1", "completed", "a1", "+15550100", "2024-01-01T00:00:00Z",
        none, none, none, some 60, none, none, false, false, none, none⟩]
      rfl rfl).1⟩

end CallWhiz
